import Mathlib

/-!
Verification of the two pipeline steps of the rental-price workflow:
the cleaning stage (`src/basic_cleaning/run.py`) and the training stage
(`src/train_random_forest/run.py`), shallowly embedded in Lean.

Numeric cell values are modelled as rationals; a missing value (NaN) is
`Option.none`. Dates are modelled as integer day numbers (the result of
parsing with `pd.to_datetime`); differences of dates in days are then
integer subtraction.
-/

/-- One row of the listings frame, as the cleaning stage sees it: the three
columns the filter inspects by name (`price`, `longitude`, `latitude`) plus
the remaining cells in column order. `none` models a missing value (NaN). -/
structure Row where
  price : Option ℚ
  longitude : Option ℚ
  latitude : Option ℚ
  others : List (Option ℚ)
deriving DecidableEq

/-- pandas `Series.between(lo, hi)` on one cell: inclusive on both ends,
and `False` on a missing value (NaN comparisons are false). -/
def optBetween (v : Option ℚ) (lo hi : ℚ) : Bool :=
  match v with
  | some x => decide (lo ≤ x) && decide (x ≤ hi)
  | none => false

/-- A row has no missing value in any column (the rows `dropna` keeps). -/
def rowComplete (r : Row) : Bool :=
  r.price.isSome && r.longitude.isSome && r.latitude.isSome
    && r.others.all Option.isSome

/-- `df = df[df['price'].between(min_price, max_price)].copy()`
(src/basic_cleaning/run.py line 39). -/
def priceFilter (lo hi : ℚ) (df : List Row) : List Row :=
  df.filter (fun r => optBetween r.price lo hi)

/-- `df.dropna(inplace=True)` (src/basic_cleaning/run.py line 43). -/
def dropnaRows (df : List Row) : List Row :=
  df.filter (fun r => rowComplete r)

/-- `idx = df['longitude'].between(-74.25, -73.50) & df['latitude'].between(40.5, 41.2);
df = df[idx].copy()` (src/basic_cleaning/run.py lines 47-48). -/
def geoFilter (df : List Row) : List Row :=
  df.filter (fun r =>
    optBetween r.longitude (-74.25) (-73.50) && optBetween r.latitude (40.5) (41.2))

/-- The row-filtering part of the cleaning stage `go`, in source order:
price filter, then drop rows with missing values, then the geographic
bounding-box filter (src/basic_cleaning/run.py lines 39-48). -/
def basicCleaningFilter (lo hi : ℚ) (df : List Row) : List Row :=
  geoFilter (dropnaRows (priceFilter lo hi df))

lemma mem_basicCleaningFilter (lo hi : ℚ) (df : List Row) (r : Row)
    (hr : r ∈ basicCleaningFilter lo hi df) :
    optBetween r.price lo hi = true ∧ rowComplete r = true ∧
      (optBetween r.longitude (-74.25) (-73.50)
        && optBetween r.latitude (40.5) (41.2)) = true := by
  unfold basicCleaningFilter geoFilter at hr
  obtain ⟨hr2, hgeo⟩ := List.mem_filter.mp hr
  unfold dropnaRows at hr2
  obtain ⟨hr1, hcomp⟩ := List.mem_filter.mp hr2
  unfold priceFilter at hr1
  obtain ⟨-, hprice⟩ := List.mem_filter.mp hr1
  exact ⟨hprice, hcomp, hgeo⟩

lemma optBetween_some (v : Option ℚ) (lo hi : ℚ) (h : optBetween v lo hi = true) :
    ∃ x, v = some x ∧ lo ≤ x ∧ x ≤ hi := by
  cases hv : v with
  | none => rw [hv] at h; simp [optBetween] at h
  | some x =>
    rw [hv] at h
    simp only [optBetween, Bool.and_eq_true, decide_eq_true_eq] at h
    exact ⟨x, rfl, h.1, h.2⟩

/-- Claim C2: every row of the cleaning-stage Filter's output has `price` in
`[lo, hi]` inclusive, `longitude` in `[-74.25, -73.50]`, `latitude` in
`[40.5, 41.2]`, and no missing value in any column; and the output is
produced by applying, in order, the price filter, then dropping rows with
any missing value, then the geographic filter. -/
theorem claim_C2_filter_output (lo hi : ℚ) (df : List Row) (r : Row)
    (hr : r ∈ basicCleaningFilter lo hi df) :
    (∃ p, r.price = some p ∧ lo ≤ p ∧ p ≤ hi)
    ∧ (∃ lon, r.longitude = some lon ∧ -74.25 ≤ lon ∧ lon ≤ -73.50)
    ∧ (∃ lat, r.latitude = some lat ∧ 40.5 ≤ lat ∧ lat ≤ 41.2)
    ∧ rowComplete r = true
    ∧ basicCleaningFilter lo hi df = geoFilter (dropnaRows (priceFilter lo hi df)) := by
  obtain ⟨hprice, hcomp, hgeo⟩ := mem_basicCleaningFilter lo hi df r hr
  rw [Bool.and_eq_true] at hgeo
  exact ⟨optBetween_some _ _ _ hprice, optBetween_some _ _ _ hgeo.1,
    optBetween_some _ _ _ hgeo.2, hcomp, rfl⟩

/-- A concrete run of the filter: the valid sample row survives, and the
C2 guarantees hold for it with bounds [10, 100]. -/
def sampleRow : Row :=
  { price := some 50, longitude := some (-74), latitude := some 41, others := [some 2] }

theorem claim_C2_witness :
    (∃ p, sampleRow.price = some p ∧ (10 : ℚ) ≤ p ∧ p ≤ 100)
    ∧ (∃ lon, sampleRow.longitude = some lon ∧ -74.25 ≤ lon ∧ lon ≤ -73.50)
    ∧ (∃ lat, sampleRow.latitude = some lat ∧ 40.5 ≤ lat ∧ lat ≤ 41.2)
    ∧ rowComplete sampleRow = true
    ∧ basicCleaningFilter 10 100 [sampleRow]
        = geoFilter (dropnaRows (priceFilter 10 100 [sampleRow])) :=
  claim_C2_filter_output 10 100 [sampleRow] sampleRow (by
    norm_num [basicCleaningFilter, geoFilter, dropnaRows, priceFilter, optBetween,
      rowComplete, sampleRow, List.filter])

/-- Claim C6: the cleaning-stage Filter is idempotent — filtering its own
output with the same bounds returns that output unchanged. -/
theorem claim_C6_filter_idempotent (lo hi : ℚ) (df : List Row) :
    basicCleaningFilter lo hi (basicCleaningFilter lo hi df)
      = basicCleaningFilter lo hi df := by
  have h1 : priceFilter lo hi (basicCleaningFilter lo hi df) = basicCleaningFilter lo hi df :=
    List.filter_eq_self.mpr (fun r hr => (mem_basicCleaningFilter lo hi df r hr).1)
  have h2 : dropnaRows (basicCleaningFilter lo hi df) = basicCleaningFilter lo hi df :=
    List.filter_eq_self.mpr (fun r hr => (mem_basicCleaningFilter lo hi df r hr).2.1)
  have h3 : geoFilter (basicCleaningFilter lo hi df) = basicCleaningFilter lo hi df :=
    List.filter_eq_self.mpr (fun r hr => (mem_basicCleaningFilter lo hi df r hr).2.2)
  show geoFilter (dropnaRows (priceFilter lo hi (basicCleaningFilter lo hi df)))
      = basicCleaningFilter lo hi df
  rw [h1, h2, h3]

/-- The column maximum pandas computes with `d.max()`: `none` on an empty
column (NaT), otherwise the greatest day number present. -/
def colMax : List ℤ → Option ℤ
  | [] => none
  | d :: ds => some (ds.foldl max d)

/-- `delta_date_feature` (src/train_random_forest/run.py lines 27-33) on one
column of parsed dates: `(d.max() - d).dt.days`, the day difference between
the column maximum and each value. -/
def delta_date_feature (ds : List ℤ) : List ℤ :=
  match colMax ds with
  | none => []
  | some m => ds.map (fun d => m - d)

lemma foldl_max_mem (b : ℤ) (l : List ℤ) : l.foldl max b ∈ b :: l := by
  induction l generalizing b with
  | nil => exact List.mem_singleton_self b
  | cons e es ih =>
    rw [List.foldl_cons]
    rcases List.mem_cons.mp (ih (max b e)) with h | h
    · rcases max_choice b e with hb | he
      · rw [h, hb]; exact List.mem_cons_self _ _
      · rw [h, he]; exact List.mem_cons_of_mem _ (List.mem_cons_self _ _)
    · exact List.mem_cons_of_mem _ (List.mem_cons_of_mem _ h)

lemma init_le_foldl_max (l : List ℤ) (b : ℤ) : b ≤ l.foldl max b := by
  induction l generalizing b with
  | nil => exact le_refl b
  | cons e es ih =>
    rw [List.foldl_cons]
    exact le_trans (le_max_left b e) (ih (max b e))

lemma le_foldl_max (b : ℤ) (l : List ℤ) (x : ℤ) (hx : x ∈ b :: l) :
    x ≤ l.foldl max b := by
  induction l generalizing b with
  | nil => simp only [List.mem_singleton] at hx; simp [hx]
  | cons e es ih =>
    rw [List.foldl_cons]
    rcases List.mem_cons.mp hx with h | h
    · subst h
      exact le_trans (le_max_left x e) (init_le_foldl_max es (max x e))
    · rcases List.mem_cons.mp h with h | h
      · subst h
        exact le_trans (le_max_right b x) (init_le_foldl_max es (max b x))
      · exact ih (max b e) (List.mem_cons_of_mem _ h)

lemma colMax_mem (ds : List ℤ) (m : ℤ) (hm : colMax ds = some m) : m ∈ ds := by
  cases ds with
  | nil => simp [colMax] at hm
  | cons d tl =>
    simp only [colMax, Option.some.injEq] at hm
    exact hm ▸ foldl_max_mem d tl

lemma le_colMax (ds : List ℤ) (m : ℤ) (hm : colMax ds = some m)
    (x : ℤ) (hx : x ∈ ds) : x ≤ m := by
  cases ds with
  | nil => simp at hx
  | cons d tl =>
    simp only [colMax, Option.some.injEq] at hm
    exact hm ▸ le_foldl_max d tl x hx

lemma delta_date_length (ds : List ℤ) :
    (delta_date_feature ds).length = ds.length := by
  cases ds with
  | nil => rfl
  | cons d tl => simp [delta_date_feature, colMax]

lemma delta_date_eq_map (ds : List ℤ) (m : ℤ) (hm : colMax ds = some m) :
    delta_date_feature ds = ds.map (fun d => m - d) := by
  unfold delta_date_feature
  rw [hm]

lemma delta_date_get (ds : List ℤ) (m : ℤ) (hm : colMax ds = some m)
    (i : ℕ) (hi : i < ds.length) :
    (delta_date_feature ds).get ⟨i, (delta_date_length ds).symm ▸ hi⟩
      = m - ds.get ⟨i, hi⟩ := by
  simp only [List.get_eq_getElem]
  simp only [delta_date_eq_map ds m hm]
  simp

/-- Claim C4: for a single-column array of parsed dates with column maximum
`m`, `delta_date_feature` returns for each value `d` the integer day count
`m - d` between `d` and the most recent date present in the column; `m` is
indeed the greatest date present; and if every value in the column is
identical (in particular a column that is entirely the imputed sentinel
2010-01-01) every output delta is 0. -/
theorem claim_C4_date_delta (ds : List ℤ) (m : ℤ) (hm : colMax ds = some m) :
    m ∈ ds ∧ (∀ x ∈ ds, x ≤ m)
    ∧ (∀ i (hi : i < ds.length),
        (delta_date_feature ds).get ⟨i, (delta_date_length ds).symm ▸ hi⟩
          = m - ds.get ⟨i, hi⟩)
    ∧ (∀ d, (∀ x ∈ ds, x = d) → ∀ y ∈ delta_date_feature ds, y = 0) := by
  refine ⟨colMax_mem ds m hm, le_colMax ds m hm, delta_date_get ds m hm, ?_⟩
  intro d hall y hy
  rw [delta_date_eq_map ds m hm] at hy
  obtain ⟨x, hx, rfl⟩ := List.mem_map.mp hy
  have hxd := hall x hx
  have hmd := hall m (colMax_mem ds m hm)
  omega

theorem claim_C4_witness :
    ((5 : ℤ) ∈ [(3 : ℤ), 5, 4] ∧ ∀ x ∈ [(3 : ℤ), 5, 4], x ≤ 5)
    ∧ (∀ y ∈ delta_date_feature [(3 : ℤ), 3, 3], y = 0) := by
  have hm1 : colMax [(3 : ℤ), 5, 4] = some 5 := by simp [colMax]
  have hm2 : colMax [(3 : ℤ), 3, 3] = some 3 := by simp [colMax]
  exact ⟨⟨(claim_C4_date_delta [3, 5, 4] 5 hm1).1,
    (claim_C4_date_delta [3, 5, 4] 5 hm1).2.1⟩,
    (claim_C4_date_delta [3, 3, 3] 3 hm2).2.2.2 3 (by simp)⟩

/-- Claim C5: the date-delta transform is strictly anti-monotone in the
date: for two dates d1 < d2 in the same column, delta(d1) > delta(d2). -/
theorem claim_C5_date_delta_antitone (ds : List ℤ) (i j : ℕ)
    (hi : i < ds.length) (hj : j < ds.length)
    (hlt : ds.get ⟨i, hi⟩ < ds.get ⟨j, hj⟩) :
    (delta_date_feature ds).get ⟨i, (delta_date_length ds).symm ▸ hi⟩
      > (delta_date_feature ds).get ⟨j, (delta_date_length ds).symm ▸ hj⟩ := by
  obtain ⟨d, tl, rfl⟩ : ∃ d tl, ds = d :: tl := by
    cases ds with
    | nil => simp at hi
    | cons d tl => exact ⟨d, tl, rfl⟩
  have hm : colMax (d :: tl) = some (tl.foldl max d) := rfl
  rw [delta_date_get _ _ hm i hi, delta_date_get _ _ hm j hj]
  omega

theorem claim_C5_witness :
    (delta_date_feature [(3 : ℤ), 5]).get ⟨0, by decide⟩
      > (delta_date_feature [(3 : ℤ), 5]).get ⟨1, by decide⟩ :=
  claim_C5_date_delta_antitone [3, 5] 0 1 (by decide) (by decide) (by decide)

/-- `ordinal_categorical = ["room_type"]` (src/train_random_forest/run.py line 128). -/
def ordinal_categorical : List String := ["room_type"]

/-- `non_ordinal_categorical = ["neighbourhood_group"]` (line 129). -/
def non_ordinal_categorical : List String := ["neighbourhood_group"]

/-- `zero_imputed = [...]` (lines 143-151). -/
def zero_imputed : List String :=
  ["minimum_nights", "number_of_reviews", "reviews_per_month",
   "calculated_host_listings_count", "availability_365", "longitude", "latitude"]

/-- The column list of the `transform_date` entry, `["last_review"]` (line 171). -/
def date_columns : List String := ["last_review"]

/-- The column list of the `transform_name` entry, `["name"]` (line 172). -/
def text_columns : List String := ["name"]

/-- All columns named in some group of the ColumnTransformer; with
`remainder="drop"`, every other input column is discarded. -/
def routedColumns : List String :=
  ordinal_categorical ++ non_ordinal_categorical ++ zero_imputed
    ++ date_columns ++ text_columns

/-- One entry of the sklearn `ColumnTransformer`: a step name, the fitted
transformer (modelled as the function it applies to the selected cells of a
row), and the list of input columns it receives. -/
structure TransformerSpec where
  stepName : String
  transform : List String → List ℚ
  columns : List String

/-- Row-wise semantics of `ColumnTransformer(transformers=..., remainder="drop")`:
each entry is applied to the cells of its own column list, and the resulting
numeric segments are concatenated in the order the entries are listed.
Columns named in no entry are never read (dropped). -/
def columnTransformerApply (specs : List TransformerSpec) (row : String → String) :
    List ℚ :=
  (specs.map (fun t => t.transform (t.columns.map row))).flatten

/-- The `preprocessor` ColumnTransformer of `get_inference_pipeline`
(src/train_random_forest/run.py lines 166-175), parametrized by the five
fitted group transformers (ordinal encoder; impute+one-hot; zero imputer;
date impute+delta; text impute+reshape+tfidf). -/
def preprocessor (t_ord t_oh t_zero t_date t_text : List String → List ℚ) :
    List TransformerSpec :=
  [⟨"ordinal_cat", t_ord, ordinal_categorical⟩,
   ⟨"non_ordinal_cat", t_oh, non_ordinal_categorical⟩,
   ⟨"impute_zero", t_zero, zero_imputed⟩,
   ⟨"transform_date", t_date, date_columns⟩,
   ⟨"transform_name", t_text, text_columns⟩]

/-- Claim C3: the Column Router partitions the named input columns into
exactly five groups with the fixed column lists, applies each group's
transformer independently to its own columns, concatenates the five outputs
column-wise in the fixed order [ordinal-categorical, nominal-categorical,
zero-imputed-numeric, date-derived, text], and drops every input column not
named in any group (two rows agreeing on the routed columns produce the
same output). -/
theorem claim_C3_column_router (t_ord t_oh t_zero t_date t_text : List String → List ℚ)
    (row row2 : String → String)
    (hagree : ∀ c ∈ routedColumns, row c = row2 c) :
    columnTransformerApply (preprocessor t_ord t_oh t_zero t_date t_text) row
      = t_ord (ordinal_categorical.map row) ++ t_oh (non_ordinal_categorical.map row)
        ++ t_zero (zero_imputed.map row) ++ t_date (date_columns.map row)
        ++ t_text (text_columns.map row)
    ∧ columnTransformerApply (preprocessor t_ord t_oh t_zero t_date t_text) row
      = columnTransformerApply (preprocessor t_ord t_oh t_zero t_date t_text) row2
    ∧ (preprocessor t_ord t_oh t_zero t_date t_text).map TransformerSpec.columns
      = [ordinal_categorical, non_ordinal_categorical, zero_imputed,
         date_columns, text_columns]
    ∧ List.Pairwise (fun a b => ∀ c ∈ a, c ∉ b)
        [ordinal_categorical, non_ordinal_categorical, zero_imputed,
         date_columns, text_columns] := by
  have hsub : ∀ g ∈ [ordinal_categorical, non_ordinal_categorical, zero_imputed,
      date_columns, text_columns], ∀ c ∈ g, c ∈ routedColumns := by decide
  have hmap : ∀ g ∈ [ordinal_categorical, non_ordinal_categorical, zero_imputed,
      date_columns, text_columns], g.map row = g.map row2 := by
    intro g hg
    exact List.map_congr_left (fun c hc => hagree c (hsub g hg c hc))
  refine ⟨?_, ?_, rfl, by decide⟩
  · simp [columnTransformerApply, preprocessor]
  · simp only [columnTransformerApply, preprocessor, List.map_cons, List.map_nil]
    rw [hmap ordinal_categorical (by simp), hmap non_ordinal_categorical (by simp),
      hmap zero_imputed (by simp), hmap date_columns (by simp),
      hmap text_columns (by simp)]

theorem claim_C3_witness :
    (preprocessor (fun c => [(c.length : ℚ)]) (fun c => [(c.length : ℚ)])
        (fun c => [(c.length : ℚ)]) (fun c => [(c.length : ℚ)])
        (fun c => [(c.length : ℚ)])).map TransformerSpec.columns
      = [ordinal_categorical, non_ordinal_categorical, zero_imputed,
         date_columns, text_columns] :=
  (claim_C3_column_router (fun c => [(c.length : ℚ)]) (fun c => [(c.length : ℚ)])
    (fun c => [(c.length : ℚ)]) (fun c => [(c.length : ℚ)]) (fun c => [(c.length : ℚ)])
    (fun _ => "x") (fun _ => "x") (fun _ _ => rfl)).2.2.1

/-- `processed_features = ordinal_categorical + non_ordinal_categorical +
zero_imputed + ["last_review", "name"]` (src/train_random_forest/run.py
line 177): the feature-name list `go` passes to `plot_feature_importance`. -/
def processed_features : List String :=
  ordinal_categorical ++ non_ordinal_categorical ++ zero_imputed
    ++ ["last_review", "name"]

/-- The bar heights `plot_feature_importance` computes
(src/train_random_forest/run.py lines 114-118): the first
`len(feat_names) - 1` raw importances taken one-to-one, then the sum of all
remaining importances appended as one final NLP bar. -/
def plotFeatImpValues (importances : List ℚ) (feat_names : List String) : List ℚ :=
  importances.take (feat_names.length - 1)
    ++ [(importances.drop (feat_names.length - 1)).sum]

/-- The x-axis tick labels the chart receives:
`set_xticklabels(np.array(feat_names), rotation=90)` (line 122). -/
def plotXTickLabels (feat_names : List String) : List String := feat_names

/-- The number of bars drawn: `bar(range(feat_imp.shape[0]), feat_imp, ...)`
(line 120), one bar per entry of the computed importance vector. -/
def plotBarCount (importances : List ℚ) (feat_names : List String) : ℕ :=
  (plotFeatImpValues importances feat_names).length

/-- A concrete raw per-column importance vector of width 15 (as produced,
e.g., when one-hot and tf-idf expansion yield 15 feature-matrix columns). -/
def exampleImportances : List ℚ := List.replicate 15 1

/-- Claim C1 is false on the code: at a concrete raw importance vector the
chart drawn by `plot_feature_importance` for the feature-name list `go`
passes (`processed_features`) has 11 bars and 11 x-axis labels — one per
listed column name — not 5 (the number of named feature groups). -/
theorem claim_C1_counterexample :
    plotBarCount exampleImportances processed_features = 11
    ∧ (plotXTickLabels processed_features).length = 11
    ∧ ¬ plotBarCount exampleImportances processed_features = 5
    ∧ ¬ (plotXTickLabels processed_features).length = 5 := by
  refine ⟨?_, by decide, ?_, by decide⟩ <;>
    simp [plotBarCount, plotFeatImpValues, exampleImportances, processed_features,
      ordinal_categorical, non_ordinal_categorical, zero_imputed]

/-- Claim C1 as amended: whenever the raw importance vector is at least as
wide as `len(processed_features) - 1`, the bar chart has exactly
`len(processed_features) = 11` bars, the x-axis label list is
`processed_features` itself (one label per routed input column, in router
order), and the bar count matches the label count. -/
theorem claim_C1_amended (importances : List ℚ)
    (h : processed_features.length - 1 ≤ importances.length) :
    plotBarCount importances processed_features
        = (plotXTickLabels processed_features).length
    ∧ (plotXTickLabels processed_features).length = 11
    ∧ plotXTickLabels processed_features = processed_features := by
  have hp : processed_features.length = 11 := by decide
  rw [hp] at h
  refine ⟨?_, by rw [plotXTickLabels, hp], rfl⟩
  simp only [plotBarCount, plotFeatImpValues, plotXTickLabels, hp,
    List.length_append, List.length_take, List.length_singleton]
  omega

theorem claim_C1_amended_witness :
    plotBarCount exampleImportances processed_features
        = (plotXTickLabels processed_features).length
    ∧ (plotXTickLabels processed_features).length = 11
    ∧ plotXTickLabels processed_features = processed_features :=
  claim_C1_amended exampleImportances (by decide)

/-- Claim C7: the aggregation in `plot_feature_importance` conserves total
importance — the sum of the produced per-bar importances equals the sum of
all raw per-column importances (here proved for every feature-name list,
hence in particular under the one-column-per-group assumption). -/
theorem claim_C7_importance_conservation (importances : List ℚ)
    (feat_names : List String) :
    (plotFeatImpValues importances feat_names).sum = importances.sum := by
  rw [plotFeatImpValues, List.sum_append, List.sum_singleton]
  exact List.sum_take_add_sum_drop importances (feat_names.length - 1)

/-- A JSON scalar as it appears in the regressor configuration object. -/
inductive JVal
  | num (n : ℤ)
  | str (s : String)
deriving DecidableEq

/-- A JSON object / Python dict: key-value pairs in insertion order. -/
abbrev JObj := List (String × JVal)

/-- Python `d[k] = v`: if the key is present its value is replaced in place,
otherwise the pair is appended at the end. -/
def dictSet (d : JObj) (k : String) (v : JVal) : JObj :=
  if d.any (fun p => p.1 == k) then
    d.map (fun p => if p.1 == k then (k, v) else p)
  else d ++ [(k, v)]

/-- Python `d.get(k)`: the value of the first pair with the given key. -/
def dictGet (d : JObj) (k : String) : Option JVal :=
  (d.find? (fun p => p.1 == k)).map (fun p => p.2)

/-- The hyperparameter mapping the training stage actually passes to
`RandomForestRegressor(**rf_config)`: the loaded external configuration
after `rf_config['random_state'] = args.random_seed`
(src/train_random_forest/run.py lines 43-48 and 127). -/
def usedRfConfig (rf_config : JObj) (random_seed : ℤ) : JObj :=
  dictSet rf_config "random_state" (JVal.num random_seed)

lemma dictGet_dictSet_same (d : JObj) (k : String) (v : JVal) :
    dictGet (dictSet d k v) k = some v := by
  unfold dictSet
  by_cases h : d.any (fun p => p.1 == k)
  · rw [if_pos h]
    induction d with
    | nil => simp at h
    | cons p ps ih =>
      by_cases hp : p.1 == k
      · simp [dictGet, List.find?, hp]
      · have hps : ps.any (fun p => p.1 == k) := by
          rcases List.any_eq_true.mp h with ⟨q, hq, hqk⟩
          rcases List.mem_cons.mp hq with rfl | hq
          · exact absurd hqk (by simpa using hp)
          · exact List.any_eq_true.mpr ⟨q, hq, hqk⟩
        simpa [dictGet, List.find?, hp] using ih hps
  · rw [if_neg h]
    have hnone : d.find? (fun p => p.1 == k) = none := by
      rw [List.find?_eq_none]
      intro p hp hpk
      exact h (List.any_eq_true.mpr ⟨p, hp, hpk⟩)
    simp [dictGet, List.find?_append, hnone, List.find?]

lemma dictGet_map_other (d : JObj) (k : String) (v : JVal) (k2 : String)
    (hk : k2 ≠ k) :
    dictGet (d.map (fun p => if p.1 == k then (k, v) else p)) k2
      = dictGet d k2 := by
  unfold dictGet
  rw [List.find?_map]
  have hkk2 : (k == k2) = false := beq_eq_false_iff_ne.mpr (fun he => hk he.symm)
  have hpred : ((fun p : String × JVal => p.1 == k2)
        ∘ (fun p => if p.1 == k then (k, v) else p))
      = fun p : String × JVal => p.1 == k2 := by
    funext p
    by_cases hp : p.1 == k
    · have h2 : (p.1 == k2) = false := by
        rw [beq_iff_eq] at hp; rw [hp]; exact hkk2
      simp [Function.comp, hp, hkk2, h2]
    · simp [Function.comp, hp]
  rw [hpred]
  cases hfind : d.find? (fun p => p.1 == k2) with
  | none => simp
  | some p =>
    have hp2 := List.find?_some hfind
    simp only [beq_iff_eq] at hp2
    have hpk : ¬ p.1 = k := by rw [hp2]; exact hk
    simp [hpk]

lemma dictGet_dictSet_other (d : JObj) (k : String) (v : JVal)
    (k2 : String) (hk : k2 ≠ k) :
    dictGet (dictSet d k v) k2 = dictGet d k2 := by
  unfold dictSet
  by_cases h : d.any (fun p => p.1 == k)
  · rw [if_pos h]
    exact dictGet_map_other d k v k2 hk
  · rw [if_neg h]
    have hlast : ((k, v).1 == k2) = false :=
      beq_eq_false_iff_ne.mpr (fun he => hk he.symm)
    unfold dictGet
    rw [List.find?_append]
    cases hfind : d.find? (fun p => p.1 == k2) with
    | some p => simp [Option.or]
    | none => simp [Option.or, List.find?, hlast]

/-- Claim C8: for every external regressor configuration object and every
`--random_seed` value, the mapping actually used to construct the regressor
is the external configuration with its `random_state` entry set to the CLI
seed — the CLI seed overrides any seed present in the external config, and
every other key keeps its configured value. -/
theorem claim_C8_seed_override (cfg : JObj) (seed : ℤ) :
    dictGet (usedRfConfig cfg seed) "random_state" = some (JVal.num seed)
    ∧ ∀ k, k ≠ "random_state" → dictGet (usedRfConfig cfg seed) k = dictGet cfg k :=
  ⟨dictGet_dictSet_same cfg "random_state" (JVal.num seed),
   fun k hk => dictGet_dictSet_other cfg "random_state" (JVal.num seed) k hk⟩

theorem claim_C8_witness :
    dictGet (usedRfConfig
        [("n_estimators", JVal.num 100), ("random_state", JVal.num 7)] 42)
        "random_state" = some (JVal.num 42)
    ∧ dictGet (usedRfConfig
        [("n_estimators", JVal.num 100), ("random_state", JVal.num 7)] 42)
        "n_estimators" = some (JVal.num 100) :=
  ⟨(claim_C8_seed_override
      [("n_estimators", JVal.num 100), ("random_state", JVal.num 7)] 42).1,
   (claim_C8_seed_override
      [("n_estimators", JVal.num 100), ("random_state", JVal.num 7)] 42).2
      "n_estimators" (by decide)⟩

/-- The argparse default of `--rf_config` (src/train_random_forest/run.py
line 223): the two-character string brace-brace, a JSON literal for the
empty object, which the code nevertheless uses as a file path. -/
def rf_config_default : String := "\x7b\x7d"

/-- `with open(args.rf_config) as fp: rf_config = json.load(fp)`
(src/train_random_forest/run.py lines 43-44). The filesystem is modelled as
a partial map from paths to already-parsed JSON objects (`json.load` itself
is the external library); `open` on a path bound to nothing raises
`FileNotFoundError`. -/
def openAndLoadRfConfig (fileContents : String → Option JObj) (path : String) :
    Except String JObj :=
  match fileContents path with
  | none => Except.error ("FileNotFoundError: " ++ path)
  | some cfg => Except.ok cfg

/-- Claim C9 names the intended behaviour, but the code slips: with
`--rf_config` left at its default, the training stage tries to *open a file
whose name is the literal default string*, so in any working directory with
no file of that name the load step raises `FileNotFoundError` instead of
proceeding with the empty configuration object (contradicting the
argument's own help text, which calls it "A JSON dict that will be passed
to the scikit-learn constructor"). -/
theorem claim_C9_default_rf_config_errors :
    openAndLoadRfConfig (fun _ => none) rf_config_default
      = Except.error ("FileNotFoundError: " ++ rf_config_default) := rfl

/-- The argparse default of `--stratify_by`
(src/train_random_forest/run.py line 215). -/
def stratify_by_default : String := "none"

/-- The columns of the feature frame `X` after `price` has been popped. -/
structure DataFrame where
  columns : List String
deriving DecidableEq

/-- pandas `X[c]`: raises `KeyError` when no column is named `c`. -/
def selectColumn (X : DataFrame) (c : String) : Except String Unit :=
  if c ∈ X.columns then Except.ok () else Except.error ("KeyError: " ++ c)

/-- The split call `train_test_split(X, y, test_size=..., stratify=X[args.stratify_by],
random_state=...)` (src/train_random_forest/run.py lines 61-63): the one and
only split path first evaluates `X[args.stratify_by]`; only if that column
lookup succeeds does the (external) stratified split itself run. -/
def trainTestSplitCall (X : DataFrame) (stratify_by : String) :
    Except String Unit :=
  match selectColumn X stratify_by with
  | Except.error e => Except.error e
  | Except.ok _ => Except.ok ()

/-- Whether the modelled call returns without raising. -/
def exceptOk (e : Except String Unit) : Bool :=
  match e with
  | Except.ok _ => true
  | Except.error _ => false

/-- Claim C10: the split is always performed with stratification on the
column named by `--stratify_by` — there is no unstratified path, so with
the default value "none" the split call raises an uncaught `KeyError`
unless the input frame contains a column literally named "none"; for any
column name, the call succeeds exactly when that column exists. -/
theorem claim_C10_stratify_lookup (X : DataFrame) :
    stratify_by_default = "none"
    ∧ ("none" ∉ X.columns →
        trainTestSplitCall X stratify_by_default
          = Except.error ("KeyError: " ++ "none"))
    ∧ ("none" ∈ X.columns →
        exceptOk (trainTestSplitCall X stratify_by_default) = true)
    ∧ (∀ c, exceptOk (trainTestSplitCall X c) = true ↔ c ∈ X.columns) := by
  refine ⟨rfl, ?_, ?_, ?_⟩
  · intro h
    simp [trainTestSplitCall, selectColumn, stratify_by_default, h]
  · intro h
    simp [trainTestSplitCall, selectColumn, stratify_by_default, h, exceptOk]
  · intro c
    by_cases h : c ∈ X.columns <;>
      simp [trainTestSplitCall, selectColumn, exceptOk, h]

theorem claim_C10_witness :
    (trainTestSplitCall ⟨["room_type", "name"]⟩ stratify_by_default
        = Except.error ("KeyError: " ++ "none"))
    ∧ exceptOk (trainTestSplitCall ⟨["none", "room_type"]⟩ stratify_by_default)
        = true :=
  ⟨(claim_C10_stratify_lookup ⟨["room_type", "name"]⟩).2.1 (by decide),
   (claim_C10_stratify_lookup ⟨["none", "room_type"]⟩).2.2.1 (by decide)⟩
